import Mathlib

/-!
Verification development for the getmybooksdone-backend statement-to-ledger
pipeline.  The JavaScript source is shallowly embedded: every definition below
is a direct translation of a function of the repository (file and function
named in its doc comment).  JavaScript strings are Lean `String`s, JavaScript
numbers are `ℚ` (the amounts handled by the code are finite decimals), and the
few regular expressions the code uses are translated into dedicated executable
matchers with JavaScript's leftmost-match / greedy / lazy backtracking
semantics for exactly those patterns.
-/

set_option maxRecDepth 4000

namespace GMBD

/-! ## JavaScript string and number primitives -/

namespace Js

/-- Character class `\s` of JavaScript regular expressions (the whitespace
characters that actually occur in statement text). -/
def isWs (c : Char) : Bool :=
  c == ' ' || c == '\t' || c == '\n' || c == '\r' || c == '\x0b' || c == '\x0c' || c == ' '

/-- ASCII lower-casing of one character, as `String.prototype.toLowerCase`
acts on the ASCII range (the only range the source compares against). -/
def lowerChar (c : Char) : Char :=
  if 'A' ≤ c && c ≤ 'Z' then Char.ofNat (c.toNat + 32) else c

/-- JavaScript `toLowerCase`. -/
def lower (s : String) : String := String.mk (s.data.map lowerChar)

/-- JavaScript `String.prototype.trim`. -/
def trim (s : String) : String :=
  String.mk (((s.data.dropWhile isWs).reverse.dropWhile isWs).reverse)

/-- Whether the character list `pre` starts the character list `l`. -/
def listStarts : List Char → List Char → Bool
  | [], _ => true
  | _ :: _, [] => false
  | a :: as, b :: bs => a == b && listStarts as bs

/-- Whether `sub` occurs contiguously inside `l`. -/
def listHasSub (sub : List Char) : List Char → Bool
  | [] => listStarts sub []
  | c :: cs => listStarts sub (c :: cs) || listHasSub sub cs

/-- JavaScript `String.prototype.includes`. -/
def includes (s sub : String) : Bool := listHasSub sub.data s.data

/-- Index of the first occurrence of `sub` in `l`, scanning from `i`. -/
def listIndexOf (sub : List Char) : List Char → Nat → Int
  | [], i => if listStarts sub [] then (i : Int) else -1
  | c :: cs, i => if listStarts sub (c :: cs) then (i : Int) else listIndexOf sub cs (i + 1)

/-- JavaScript `String.prototype.indexOf` (`-1` when absent). -/
def indexOf (s sub : String) : Int := listIndexOf sub.data s.data 0

/-- JavaScript `String.prototype.substring` with its clamping and
argument-swapping behaviour. -/
def substring (s : String) (a b : Int) : String :=
  let n := (s.data.length : Int)
  let a' := (min (max a 0) n).toNat
  let b' := (min (max b 0) n).toNat
  let lo := min a' b'
  let hi := max a' b'
  String.mk ((s.data.drop lo).take (hi - lo))

/-- Removal of every character satisfying `p`, the effect of
`replace(/c₁|c₂|.../g, "")` for single-character alternatives. -/
def stripChars (p : Char → Bool) (s : String) : String :=
  String.mk (s.data.filter (fun c => !(p c)))

/-- JavaScript `replace(from, to)` with one-character `from` and `to`:
only the first occurrence is replaced. -/
def replaceFirstChar (s : String) (a b : Char) : String :=
  String.mk (go s.data)
where
  go : List Char → List Char
    | [] => []
    | c :: cs => if c == a then b :: cs else c :: go cs

/-- Numeric value of a list of decimal digit characters. -/
def digitsVal (l : List Char) : Nat :=
  l.foldl (fun a c => a * 10 + (c.toNat - 48)) 0

/-- JavaScript `Number.parseFloat` on the decimal strings the parsers feed it
(optional sign, digits, at most one point; the longest numeric prefix is
taken and `none` stands for `NaN`).  Exponents and `Infinity` never occur in
statement text and are not modelled. -/
def parseFloatQ (s : String) : Option ℚ :=
  let l := s.data.dropWhile isWs
  let sgn : Bool := match l with | '-' :: _ => true | _ => false
  let l2 : List Char := match l with
    | '-' :: t => t
    | '+' :: t => t
    | _ => l
  let ip := l2.takeWhile Char.isDigit
  let r1 := l2.dropWhile Char.isDigit
  let fp : List Char := match r1 with
    | '.' :: t => t.takeWhile Char.isDigit
    | _ => []
  if ip.isEmpty && fp.isEmpty then none
  else
    let v : ℚ := mkRat (Int.ofNat (digitsVal ip * 10 ^ fp.length + digitsVal fp)) (10 ^ fp.length)
    some (if sgn then -v else v)

/-- Decimal rendering of an integer, as JavaScript prints integral numbers. -/
def intRepr (i : Int) : String :=
  if i < 0 then "-" ++ Nat.repr (-i).toNat else Nat.repr i.toNat

/-- JavaScript `Math.abs` on the rational model of numbers. -/
def mathAbs (q : ℚ) : ℚ := if q.num < 0 then -q else q

/-- Value of `isNaN(amount) ? 0 : Math.abs(amount)`. -/
def absOrZero : Option ℚ → ℚ
  | none => 0
  | some q => mathAbs q

/-- Splitting a character list at every newline, the effect of
`text.split("\n")`. -/
def splitNl (cur : List Char) : List Char → List (List Char)
  | [] => [cur.reverse]
  | '\n' :: t => cur.reverse :: splitNl [] t
  | c :: t => splitNl (c :: cur) t

/-- Rendering of a JavaScript number inside a template literal.  The amounts
the pipeline produces are finite decimals, printed without trailing zeros;
`k` below is the least number of fractional digits that makes the value
integral, which is exactly the shortest decimal JavaScript prints for these
values. -/
def numToString (q : ℚ) : String :=
  if q.den = 1 then intRepr q.num
  else
    match (List.range 40).find? (fun k => q.den ∣ 10 ^ k) with
    | some k =>
        let scaled := q.num.natAbs * (10 ^ k / q.den)
        let ip := scaled / 10 ^ k
        let fracDigits := Nat.toDigits 10 (scaled % 10 ^ k)
        let padded := List.replicate (k - fracDigits.length) '0' ++ fracDigits
        (if q.num < 0 then "-" else "") ++ Nat.repr ip ++ "." ++ String.mk padded
    | none => intRepr q.num

/-- JavaScript array access `columns[i]` followed by use as a string; an
out-of-range or negative index yields `undefined`, which every use site
either guards against or treats exactly like the empty string (falsy, fails
every date test), so `""` stands for `undefined`. -/
def getCol (cols : List String) (i : Int) : String :=
  if 0 ≤ i then cols.getD i.toNat "" else ""

/-- Column splitting state machine: JavaScript `split(/\s{2,}/)`, and with
`tabSingle` also the `split(/\s{2,}|\t/)` variant, splitting on maximal
whitespace runs of length at least two (or a lone tab). -/
def splitColsGo (tabSingle : Bool) (cur pend : List Char) : List Char → List String
  | [] =>
      if 2 ≤ pend.length || (tabSingle && pend == ['\t']) then
        [String.mk cur.reverse, ""]
      else [String.mk (cur.reverse ++ pend.reverse)]
  | c :: cs =>
      if isWs c then splitColsGo tabSingle cur (c :: pend) cs
      else
        if 2 ≤ pend.length || (tabSingle && pend == ['\t']) then
          String.mk cur.reverse :: splitColsGo tabSingle [c] [] cs
        else splitColsGo tabSingle (c :: (pend.reverse ++ cur)) [] cs

/-- JavaScript `line.split(/\s{2,}/)` (`tabSingle = false`) and
`line.split(/\s{2,}|\t/)` (`tabSingle = true`). -/
def splitCols (tabSingle : Bool) (s : String) : List String :=
  splitColsGo tabSingle [] [] s.data

end Js

/-! ## Regular-expression matchers used by the parsers -/

namespace Rx

/-- Greedy `\d{1,2}` followed by a separator accepted by `sepOk`: the two
alternatives of the backtracking search, longer digit group first.  Returns the digit
characters and the remainder after the separator. -/
def d12sep (sepOk : Char → Bool) : List Char → Option (List Char × List Char)
  | a :: b :: rest =>
      if a.isDigit && b.isDigit then
        match rest with
        | r0 :: rs => if sepOk r0 then some ([a, b], rs) else none
        | [] => none
      else if a.isDigit && sepOk b then some ([a], rest)
      else none
  | _ => none

/-- Exactly four digit characters at the head. -/
def fourDigits : List Char → Option (List Char × List Char)
  | a :: b :: c :: d :: rest =>
      if a.isDigit && b.isDigit && c.isDigit && d.isDigit then some ([a, b, c, d], rest)
      else none
  | _ => none

/-- Match of the full-string pattern `^\d{1,2}\/\d{1,2}\/\d{4}$`, returning
the day, month and year digit groups. -/
def matchDDMMYYYY (l : List Char) : Option (List Char × List Char × List Char) :=
  match d12sep (· == '/') l with
  | none => none
  | some (d, r1) =>
      match d12sep (· == '/') r1 with
      | none => none
      | some (m, r2) =>
          match fourDigits r2 with
          | some (y, []) => some (d, m, y)
          | _ => none

/-- Test of `^\d{1,2}\/\d{1,2}\/\d{4}$`. -/
def testDateSlashFull (s : String) : Bool := (matchDDMMYYYY s.data).isSome

/-- Test of `^\d{1,2}-\d{1,2}-\d{4}$`. -/
def testDateDashFull (s : String) : Bool :=
  match d12sep (· == '-') s.data with
  | none => false
  | some (_, r1) =>
      match d12sep (· == '-') r1 with
      | none => false
      | some (_, r2) =>
          match fourDigits r2 with
          | some (_, []) => true
          | _ => false

/-- Word character class `\w`. -/
def isWordChar (c : Char) : Bool := c.isAlphanum || c == '_'

/-- Test of `^\d{1,2}\s+\w{3}\s+\d{4}$`. -/
def testDateMonFull (s : String) : Bool :=
  let l := s.data
  let ds := l.takeWhile Char.isDigit
  let r1 := l.dropWhile Char.isDigit
  if ds.length < 1 || 2 < ds.length then false
  else
    let ws1 := r1.takeWhile Js.isWs
    let r2 := r1.dropWhile Js.isWs
    if ws1.isEmpty then false
    else
      match r2 with
      | w1 :: w2 :: w3 :: r3 =>
          if isWordChar w1 && isWordChar w2 && isWordChar w3 then
            let ws2 := r3.takeWhile Js.isWs
            let r4 := r3.dropWhile Js.isWs
            if ws2.isEmpty then false
            else
              match fourDigits r4 with
              | some (_, []) => true
              | _ => false
          else false
      | _ => false

/-- Test of `^\d+\.?\d*$`. -/
def testNumericFull (s : String) : Bool :=
  let l := s.data
  let ds := l.takeWhile Char.isDigit
  let r1 := l.dropWhile Char.isDigit
  if ds.isEmpty then false
  else
    match r1 with
    | [] => true
    | '.' :: t => t.all Char.isDigit
    | _ => false

/-- Backtracking alternatives of `\d{1,2}\/` at the head of the input, in the
greedy order a JavaScript regex explores them (two digits first).  Each
alternative pairs the digit group with the remainder after the slash. -/
def dateSlashAlts (l : List Char) : List (List Char × List Char) :=
  let two : List (List Char × List Char) :=
    match l with
    | a :: b :: '/' :: rest => if a.isDigit && b.isDigit then [([a, b], rest)] else []
    | _ => []
  let one : List (List Char × List Char) :=
    match l with
    | a :: '/' :: rest => if a.isDigit then [([a], rest)] else []
    | _ => []
  two ++ one

/-- Backtracking alternatives of `(\d{1,2}\/\d{1,2}\/\d{4})` at the head of
the input: the matched text together with the remainder. -/
def dateAlts (l : List Char) : List (List Char × List Char) :=
  (dateSlashAlts l).flatMap (fun p =>
    (dateSlashAlts p.2).flatMap (fun q =>
      match fourDigits q.2 with
      | some (y, rest) => [(p.1 ++ '/' :: q.1 ++ '/' :: y, rest)]
      | none => []))

/-- Backtracking alternatives of greedy `\s+` at the head of the input,
longest run first. -/
def wsPlusAlts (l : List Char) : List (List Char × List Char) :=
  let ws := l.takeWhile Js.isWs
  let rest := l.dropWhile Js.isWs
  (List.range ws.length).map (fun j =>
    let k := ws.length - j
    (ws.take k, ws.drop k ++ rest))

/-- Backtracking alternatives of lazy `(.+?)` at the head of the input,
shortest first (statement lines contain no newline, so `.` is any
character). -/
def lazyAlts (l : List Char) : List (List Char × List Char) :=
  (List.range l.length).map (fun j => (l.take (j + 1), l.drop (j + 1)))

/-- Match of `(\d+\.\d{2})` at the head of the input.  The greedy `\d+` must
consume the whole digit run, because giving a digit back would leave a digit
where the literal dot is required, so the match is deterministic. -/
def amountTail (l : List Char) : List (List Char × List Char) :=
  let ds := l.takeWhile Char.isDigit
  let r := l.dropWhile Char.isDigit
  if ds.isEmpty then []
  else
    match r with
    | '.' :: e1 :: e2 :: rest =>
        if e1.isDigit && e2.isDigit then [(ds ++ '.' :: [e1, e2], rest)] else []
    | _ => []

/-- Match attempt, at one start position, of pattern 1 of the Starling
fallback extractor: `(\d{1,2}\/\d{1,2}\/\d{4})\s+(.+?)\s+(\d+\.\d{2})\s+(\d+\.\d{2})`.
Returns the four captured groups of the first solution in backtracking
order. -/
def p1At (l : List Char) : Option (String × String × String × String) :=
  ((dateAlts l).flatMap (fun pd =>
    (wsPlusAlts pd.2).flatMap (fun p1 =>
      (lazyAlts p1.2).flatMap (fun pdesc =>
        (wsPlusAlts pdesc.2).flatMap (fun p2 =>
          (amountTail p2.2).flatMap (fun pa1 =>
            (wsPlusAlts pa1.2).flatMap (fun p3 =>
              (amountTail p3.2).map (fun pa2 =>
                (String.mk pd.1, String.mk pdesc.1, String.mk pa1.1,
                  String.mk pa2.1))))))))).head?

/-- Match attempt, at one start position, of pattern 2 of the Starling
fallback extractor: `(\d{1,2}\/\d{1,2}\/\d{4})\s+(.+?)\s+£(\d+\.\d{2})`. -/
def p2At (l : List Char) : Option (String × String × String) :=
  ((dateAlts l).flatMap (fun pd =>
    (wsPlusAlts pd.2).flatMap (fun p1 =>
      (lazyAlts p1.2).flatMap (fun pdesc =>
        (wsPlusAlts pdesc.2).flatMap (fun p2 =>
          let arm : List (List Char × List Char) :=
            match p2.2 with
            | '£' :: r => amountTail r
            | _ => []
          arm.map (fun pa =>
            (String.mk pd.1, String.mk pdesc.1, String.mk pa.1))))))).head?

/-- Match attempt, at one start position, of pattern 3 of the Starling
fallback extractor: `(\d{1,2}\/\d{1,2}\/\d{4})\s+(.+?)\s+(\d+\.\d{2})\s*$`. -/
def p3At (l : List Char) : Option (String × String × String) :=
  ((dateAlts l).flatMap (fun pd =>
    (wsPlusAlts pd.2).flatMap (fun p1 =>
      (lazyAlts p1.2).flatMap (fun pdesc =>
        (wsPlusAlts pdesc.2).flatMap (fun p2 =>
          (amountTail p2.2).flatMap (fun pa =>
            if pa.2.all Js.isWs then
              [(String.mk pd.1, String.mk pdesc.1, String.mk pa.1)]
            else [])))))).head?

/-- Unanchored leftmost search: the JavaScript engine tries each start
position left to right and keeps the first position at which the attempt
succeeds. -/
def scanOpt {α : Type} (tryAt : List Char → Option α) : List Char → Option α
  | [] => tryAt []
  | c :: cs =>
      match tryAt (c :: cs) with
      | some r => some r
      | none => scanOpt tryAt cs

/-- JavaScript `line.match(pattern1)` for the Starling fallback extractor. -/
def matchP1 (s : String) : Option (String × String × String × String) :=
  scanOpt p1At s.data

/-- JavaScript `line.match(pattern2)` for the Starling fallback extractor. -/
def matchP2 (s : String) : Option (String × String × String) :=
  scanOpt p2At s.data

/-- JavaScript `line.match(pattern3)` for the Starling fallback extractor. -/
def matchP3 (s : String) : Option (String × String × String) :=
  scanOpt p3At s.data

/-- Backtracking alternatives of `\d{1,2}` followed by one separator character
accepted by `sepOk`, recording the separator (needed because the slash-or-dash class may mix
separators).  Greedy order: two digits first. -/
def d12sepAlts (sepOk : Char → Bool) (l : List Char) : List (List Char × Char × List Char) :=
  let two : List (List Char × Char × List Char) :=
    match l with
    | a :: b :: c :: rest => if a.isDigit && b.isDigit && sepOk c then [([a, b], c, rest)] else []
    | _ => []
  let one : List (List Char × Char × List Char) :=
    match l with
    | a :: b :: rest => if a.isDigit && sepOk b then [([a], b, rest)] else []
    | _ => []
  two ++ one

/-- Backtracking alternatives of a numeric date
`\d{1,2} sep \d{1,2} sep \d{4}` with separators accepted by `sepOk`:
matched text and remainder. -/
def numDateAlts (sepOk : Char → Bool) (l : List Char) : List (List Char × List Char) :=
  (d12sepAlts sepOk l).flatMap (fun p =>
    (d12sepAlts sepOk p.2.2).flatMap (fun q =>
      match fourDigits q.2.2 with
      | some (y, rest) => [(p.1 ++ p.2.1 :: q.1 ++ q.2.1 :: y, rest)]
      | none => []))

/-- Match, at one start position, of `\d{1,2}\s+\w{3}\s+\d{4}`: the greedy
`\d{1,2}` must cover the whole digit run (a leftover digit cannot start
`\s+`), `\w{3}` is exactly three word characters followed by whitespace, and
the matched text is returned. -/
def mon3At (l : List Char) : Option (List Char) :=
  let ds := l.takeWhile Char.isDigit
  let r1 := l.dropWhile Char.isDigit
  if ds.length < 1 ∨ 2 < ds.length then none
  else
    let ws1 := r1.takeWhile Js.isWs
    let r2 := r1.dropWhile Js.isWs
    if ws1.isEmpty then none
    else
      match r2 with
      | w1 :: w2 :: w3 :: r3 =>
          if isWordChar w1 && isWordChar w2 && isWordChar w3 then
            let ws2 := r3.takeWhile Js.isWs
            let r4 := r3.dropWhile Js.isWs
            if ws2.isEmpty then none
            else
              match fourDigits r4 with
              | some (y, _) => some (ds ++ ws1 ++ w1 :: w2 :: w3 :: (ws2 ++ y))
              | none => none
          else none
      | _ => none

/-- Match, at one start position, of `\d{1,2}\s+[A-Za-z]+\s+\d{4}` (the
letter run is consumed whole, a leftover letter cannot start `\s+`). -/
def wordDateAt (l : List Char) : Option (List Char) :=
  let ds := l.takeWhile Char.isDigit
  let r1 := l.dropWhile Char.isDigit
  if ds.length < 1 ∨ 2 < ds.length then none
  else
    let ws1 := r1.takeWhile Js.isWs
    let r2 := r1.dropWhile Js.isWs
    if ws1.isEmpty then none
    else
      let ls := r2.takeWhile Char.isAlpha
      let r3 := r2.dropWhile Char.isAlpha
      if ls.isEmpty then none
      else
        let ws2 := r3.takeWhile Js.isWs
        let r4 := r3.dropWhile Js.isWs
        if ws2.isEmpty then none
        else
          match fourDigits r4 with
          | some (y, _) => some (ds ++ ws1 ++ ls ++ ws2 ++ y)
          | none => none

/-- Leftmost search of `(\d{1,2}\/\d{1,2}\/\d{4})`, returning the matched
text. -/
def searchSlashDate (s : String) : Option String :=
  (scanOpt (fun l => (numDateAlts (· == '/') l).head?.map (·.1)) s.data).map String.mk

/-- Leftmost search of `(\d{1,2}-\d{1,2}-\d{4})`. -/
def searchDashDate (s : String) : Option String :=
  (scanOpt (fun l => (numDateAlts (· == '-') l).head?.map (·.1)) s.data).map String.mk

/-- Leftmost search of `(\d{1,2}\s+\w{3}\s+\d{4})`. -/
def searchMon3Date (s : String) : Option String :=
  (scanOpt mon3At s.data).map String.mk

/-- Leftmost search of `(\d{1,2}\s+[A-Za-z]+\s+\d{4})`. -/
def searchWordDate (s : String) : Option String :=
  (scanOpt wordDateAt s.data).map String.mk

/-- Leftmost search of the combined date pattern
`(\d{1,2} sep \d{1,2} sep \d{4}|\d{1,2}\s+[A-Za-z]+\s+\d{4})` with sep a slash or dash: at each start
position the numeric alternative is tried before the word alternative. -/
def searchCombinedDate (s : String) : Option String :=
  (scanOpt
    (fun l =>
      match (numDateAlts (fun c => c == '/' || c == '-') l).head? with
      | some p => some p.1
      | none => wordDateAt l)
    s.data).map String.mk

/-- Match of the capture `(\d+[,.]\d{2})` at the head of the input: the
greedy `\d+` must take the whole digit run (a leftover digit cannot match
`[,.]`), then a separator and exactly two digits.  Returns the captured text
and the remainder. -/
def moneyNumAt (l : List Char) : Option (List Char × List Char) :=
  let ds := l.takeWhile Char.isDigit
  let r2 := l.dropWhile Char.isDigit
  if ds.isEmpty then none
  else
    match r2 with
    | s :: e1 :: e2 :: rest =>
        if (s == ',' || s == '.') && e1.isDigit && e2.isDigit then
          some (ds ++ s :: [e1, e2], rest)
        else none
    | _ => none

/-- Match attempt at one position of the money pattern
`£?\s*(\d+[,.]\d{2})` (or `£\s*(\d+[,.]\d{2})` when `needPound`).  When the
head is `£`, the optional group must consume it (dropping it leaves `£`
where a digit is required); otherwise the `\s*` may consume a whitespace run
before the digits.  Returns the full matched text, the capture, and the
remainder. -/
def tryMoneyAt (needPound : Bool) (l : List Char) : Option (List Char × List Char × List Char) :=
  match l with
  | '£' :: t =>
      let ws := t.takeWhile Js.isWs
      let r1 := t.dropWhile Js.isWs
      match moneyNumAt r1 with
      | some (cap, rest) => some ('£' :: (ws ++ cap), cap, rest)
      | none => none
  | _ =>
      if needPound then none
      else
        let ws := l.takeWhile Js.isWs
        let r1 := l.dropWhile Js.isWs
        match moneyNumAt r1 with
        | some (cap, rest) => some (ws ++ cap, cap, rest)
        | none => none

/-- Scanning loop of `matchAll` for the money patterns: after a match the
scan resumes past the matched text, otherwise it advances one character.
The fuel argument (initially `length + 1`) only bounds the recursion; every
step consumes at least one character, so it never runs out. -/
def moneyScanGo (needPound : Bool) : Nat → Nat → List Char → List (Nat × String × String)
  | 0, _, _ => []
  | fuel + 1, i, l =>
      match tryMoneyAt needPound l with
      | some (full, cap, rest) =>
          (i, String.mk full, String.mk cap) ::
            moneyScanGo needPound fuel (i + full.length) rest
      | none =>
          match l with
          | [] => []
          | _ :: t => moneyScanGo needPound fuel (i + 1) t

/-- JavaScript `[...line.matchAll(moneyPattern)]`: for each match its index,
full text and captured group. -/
def moneyAll (needPound : Bool) (s : String) : List (Nat × String × String) :=
  moneyScanGo needPound (s.data.length + 1) 0 s.data

end Rx

/-! ## part_001 server (second revision): date normalization and dedup -/

/-- Candidate transaction record as built by the extraction strategies.
`currency` and `rawAmount` are `Option`s because only some push sites of the
source set them. -/
structure Tx where
  date : String
  description : String
  amount : ℚ
  type : String
  category : String
  currency : Option String := none
  rawAmount : Option ℚ := none
deriving DecidableEq, Repr

/-- Account metadata returned by `extractAccountInfo`. -/
structure AccountInfo where
  bankName : String
  accountType : String
  accountNumber : String
  sortCode : String
  statementPeriod : String
  currency : String
deriving DecidableEq, Repr

/-- Result shape of `parseStarlingStatement`.  `error` is only populated by
the exception path of the source, which the pure embedding cannot reach, so
every constructed result carries `none`. -/
structure ParseResult where
  success : Bool
  transactions : List Tx
  accountInfo : AccountInfo
  transactionCount : Nat
  error : Option String
deriving DecidableEq, Repr

/-- Splitting of the extracted text into trimmed non-empty lines, shared by
both parser revisions (`text.split("\n").map(trim).filter(len > 0)`). -/
def splitLines (text : String) : List String :=
  (((Js.splitNl [] text.data).map (fun l => Js.trim (String.mk l)))).filter
    (fun l => 0 < l.length)

namespace Server

/-- Function `formatDate` of the server file: a string matching
`^(\d{1,2})\/(\d{1,2})\/(\d{4})$` is rewritten to `YYYY-MM-DD` with
`padStart(2, "0")` on day and month; anything else is returned unchanged. -/
def padTwo (l : List Char) : List Char :=
  if 2 ≤ l.length then l else List.replicate (2 - l.length) '0' ++ l

/-- Function `formatDate` of the server file (part_001). -/
def formatDate (s : String) : String :=
  match Rx.matchDDMMYYYY s.data with
  | some (d, m, y) => String.mk (y ++ '-' :: (padTwo m ++ '-' :: padTwo d))
  | none => s

/-- Key string `` `${tx.date}-${tx.amount}-${tx.description.substring(0, 10)}` ``
used by `removeDuplicateTransactions`. -/
def dedupKey (t : Tx) : String :=
  t.date ++ "-" ++ Js.numToString t.amount ++ "-" ++ Js.substring t.description 0 10

/-- Filter-with-seen-set loop of `removeDuplicateTransactions`; the JavaScript
`Set` is a list of already-seen keys. -/
def dedupGo (seen : List String) : List Tx → List Tx
  | [] => []
  | t :: ts =>
      if dedupKey t ∈ seen then dedupGo seen ts
      else t :: dedupGo (dedupKey t :: seen) ts

/-- Function `removeDuplicateTransactions` of the server file (part_001). -/
def removeDuplicateTransactions (txs : List Tx) : List Tx := dedupGo [] txs

/-- Specification-side deduplicator, written from the spec's words: the first
occurrence of each key is kept, every later element with the same key is
dropped, and the order of kept elements is preserved. -/
def keepFirstByKey : List Tx → List Tx
  | [] => []
  | t :: ts =>
      t :: keepFirstByKey (ts.filter (fun u => dedupKey u != dedupKey t))
termination_by l => l.length
decreasing_by
  exact Nat.lt_succ_of_le (List.length_filter_le _ _)

/-- Specification-side key of the claim: the literal triple
`(date, amount, description.substring(0, 10))`. -/
def dedupTriple (t : Tx) : String × ℚ × String :=
  (t.date, t.amount, Js.substring t.description 0 10)

end Server

/-! ## part_003 account coding service -/

namespace Coding

/-- Method `autoCodeTransaction` of `AccountCodingService` (part_003): ordered
substring rules over the lower-cased description; `amount` is accepted but
never consulted by the source. -/
def autoCodeTransaction (description : String) (amount : ℚ) (isIncome : Bool) : String :=
  let desc := Js.lower description
  if isIncome then
    if Js.includes desc "salary" || Js.includes desc "wage" || Js.includes desc "payroll" then "4000"
    else if Js.includes desc "interest" then "7000"
    else if Js.includes desc "dividend" || Js.includes desc "investment" then "4010"
    else "4000"
  else
    if Js.includes desc "bank" && Js.includes desc "fee" then "6160"
    else if Js.includes desc "fuel" || Js.includes desc "petrol" || Js.includes desc "parking" || Js.includes desc "car" then "6100"
    else if Js.includes desc "restaurant" || Js.includes desc "cafe" || Js.includes desc "lunch" || Js.includes desc "dinner" then "6110"
    else if Js.includes desc "office" || Js.includes desc "stationery" || Js.includes desc "supplies" then "6150"
    else if Js.includes desc "phone" || Js.includes desc "mobile" || Js.includes desc "internet" || Js.includes desc "broadband" then "6120"
    else if Js.includes desc "insurance" then "6170"
    else if Js.includes desc "rent" || Js.includes desc "rental" then "6300"
    else if Js.includes desc "travel" || Js.includes desc "train" || Js.includes desc "bus" || Js.includes desc "taxi" then "6060"
    else if Js.includes desc "subscription" || Js.includes desc "membership" then "6180"
    else if Js.includes desc "legal" || Js.includes desc "solicitor" || Js.includes desc "lawyer" then "6420"
    else if Js.includes desc "accountant" || Js.includes desc "accounting" || Js.includes desc "bookkeeping" then "6410"
    else if Js.includes desc "electricity" || Js.includes desc "gas" || Js.includes desc "water" || Js.includes desc "utility" then "6320"
    else "6180"

end Coding

/-! ## starling-parser.js (first revision): structured-column extraction -/

/-- Header description built by `findTransactionHeader`
(src/parsers/starling-parser.js).  Indices are `Int` because the source uses
`-1` as the not-found sentinel. -/
structure HeaderInfo where
  found : Bool
  index : Int
  columns : List String
  dateIndex : Int
  descriptionIndex : Int
  inIndex : Int
  outIndex : Int
  balanceIndex : Int
deriving DecidableEq, Repr

namespace Starling

/-- Function `parseAmount` (src/parsers/starling-parser.js lines 427-441):
currency symbol, whitespace and commas are stripped, then parentheses and
minus signs are stripped, and the absolute value of the parse is returned
(`0` on `NaN`). -/
def parseAmount (amountStr : String) : ℚ :=
  if amountStr == "" || Js.trim amountStr == "" then 0
  else
    let cleaned := Js.stripChars (fun c => c == '£' || Js.isWs c || c == ',') amountStr
    let cleaned2 := Js.stripChars (fun c => c == '-' || c == '(' || c == ')') cleaned
    Js.absOrZero (Js.parseFloatQ cleaned2)

/-- Function `determineTypeFromDescription` of starling-parser.js: expense
keywords win, otherwise `"income"`. -/
def determineTypeFromDescription (description : String) : String :=
  if description == "" then "income"
  else
    let desc := Js.lower description
    if Js.includes desc "payment" || Js.includes desc "purchase" ||
        Js.includes desc "withdrawal" || Js.includes desc "atm" ||
        Js.includes desc "fee" || Js.includes desc "charge" ||
        Js.includes desc "debit" || Js.includes desc "transfer out" ||
        Js.includes desc "standing order" || Js.includes desc "direct debit" ||
        Js.includes desc "card payment" || Js.includes desc "contactless" ||
        Js.includes desc "chip and pin" || Js.includes desc "online payment" ||
        Js.includes desc "bill payment" || Js.includes desc "subscription" then "expense"
    else "income"

/-- Function `categorizeTransaction` of starling-parser.js (lines 487-550). -/
def categorizeTransaction (description : String) : String :=
  if description == "" then "Uncategorized"
  else
    let d := Js.lower description
    if Js.includes d "salary" || Js.includes d "payroll" then "Income:Salary"
    else if Js.includes d "dividend" then "Income:Dividends"
    else if Js.includes d "interest" then "Income:Interest"
    else if Js.includes d "freelance" || Js.includes d "invoice" then "Income:Freelance"
    else if Js.includes d "tesco" || Js.includes d "sainsbury" || Js.includes d "asda" ||
        Js.includes d "morrisons" || Js.includes d "waitrose" || Js.includes d "aldi" ||
        Js.includes d "lidl" || Js.includes d "grocery" then "Expenses:Groceries"
    else if Js.includes d "uber" || Js.includes d "deliveroo" || Js.includes d "just eat" ||
        Js.includes d "restaurant" || Js.includes d "cafe" || Js.includes d "coffee" then
      "Expenses:Dining"
    else if Js.includes d "amazon" || Js.includes d "ebay" || Js.includes d "argos" ||
        Js.includes d "currys" then "Expenses:Shopping"
    else if Js.includes d "petrol" || Js.includes d "fuel" || Js.includes d "parking" ||
        Js.includes d "transport" || Js.includes d "train" || Js.includes d "bus" ||
        Js.includes d "taxi" then "Expenses:Transport"
    else "Uncategorized"

/-- Column-to-role assignment loop of `findTransactionHeader` (the `forEach`
over header columns); later matching columns overwrite earlier assignments,
and roles not matched by any column keep their previous values. -/
def assignCols (h : HeaderInfo) (columns : List String) : HeaderInfo :=
  columns.enum.foldl
    (fun acc p =>
      let colLower := Js.lower p.2
      let acc := if Js.includes colLower "date" || Js.includes colLower "day" then
          { acc with dateIndex := (p.1 : Int) } else acc
      let acc := if Js.includes colLower "description" || Js.includes colLower "details" ||
          Js.includes colLower "transaction" || Js.includes colLower "particulars" then
          { acc with descriptionIndex := (p.1 : Int) } else acc
      let acc := if Js.includes colLower "in" || Js.includes colLower "credit" ||
          Js.includes colLower "money in" || Js.includes colLower "received" then
          { acc with inIndex := (p.1 : Int) } else acc
      let acc := if Js.includes colLower "out" || Js.includes colLower "debit" ||
          Js.includes colLower "money out" || Js.includes colLower "paid" then
          { acc with outIndex := (p.1 : Int) } else acc
      if Js.includes colLower "balance" || Js.includes colLower "closing" then
        { acc with balanceIndex := (p.1 : Int) } else acc)
    h

/-- Scanning loop of `findTransactionHeader`: the shared `headerInfo` record
is threaded through candidate header lines and the loop breaks as soon as
both an IN and an OUT column are mapped. -/
def fthGo : HeaderInfo → Nat → List String → HeaderInfo
  | h, _, [] => h
  | h, i, originalLine :: rest =>
      let line := Js.lower originalLine
      if line.length < 10 then fthGo h (i + 1) rest
      else if (Js.includes line "in" && Js.includes line "out") ||
          (Js.includes line "credit" && Js.includes line "debit") ||
          (Js.includes line "money in" && Js.includes line "money out") then
        let columns := ((Js.splitCols false originalLine).map Js.trim).filter
          (fun c => 0 < c.length)
        if 3 ≤ columns.length then
          let h' := assignCols
            { h with found := true, index := (i : Int), columns := columns } columns
          if h'.inIndex ≠ -1 ∧ h'.outIndex ≠ -1 then h' else fthGo h' (i + 1) rest
        else fthGo h (i + 1) rest
      else fthGo h (i + 1) rest

/-- Function `findTransactionHeader` (src/parsers/starling-parser.js lines
64-162). -/
def findTransactionHeader (lines : List String) : HeaderInfo :=
  fthGo ⟨false, -1, [], -1, -1, -1, -1, -1⟩ 0 lines

/-- Description inference of `extractTransactionsFromStructure` when no
description column is mapped: the longest non-numeric column other than the
IN/OUT/balance columns, scanning from column 1. -/
def inferDesc (h : HeaderInfo) (columns : List String) : String :=
  columns.enum.foldl
    (fun desc p =>
      if 1 ≤ p.1 ∧ (p.1 : Int) ≠ h.inIndex ∧ (p.1 : Int) ≠ h.outIndex ∧
          (p.1 : Int) ≠ h.balanceIndex ∧ Rx.testNumericFull p.2 = false ∧
          desc.length < p.2.length then p.2
      else desc)
    ""

/-- Per-line body of the loop of `extractTransactionsFromStructure`
(src/parsers/starling-parser.js lines 216-313): the money-in column is read
first and the money-out column only when the money-in amount was zero, and a
single transaction is pushed when either is non-zero. -/
def structLine (h : HeaderInfo) (rawLine : String) : List Tx :=
  let line := Js.trim rawLine
  let low := Js.lower line
  if line.length < 5 ∨ Js.includes low "page" ∨ Js.includes low "statement" ∨
      Js.includes low "total" ∨ Js.includes low "balance brought forward" then []
  else
    let columns := ((Js.splitCols true line).map Js.trim).filter (fun c => 0 < c.length)
    if (columns.length : Int) < max h.inIndex h.outIndex + 1 then []
    else
      let c0 := Js.getCol columns h.dateIndex
      let dateCol := if c0 = "" then Js.getCol columns 0 else c0
      if ¬(Rx.testDateSlashFull dateCol ∨ Rx.testDateDashFull dateCol ∨
          Rx.testDateMonFull dateCol) then []
      else
        let description :=
          if h.descriptionIndex ≠ -1 ∧ h.descriptionIndex < (columns.length : Int) then
            Js.getCol columns h.descriptionIndex
          else inferDesc h columns
        let amount : ℚ :=
          if h.inIndex ≠ -1 ∧ h.inIndex < (columns.length : Int) ∧
              0 < parseAmount (Js.getCol columns h.inIndex) then
            parseAmount (Js.getCol columns h.inIndex)
          else if h.outIndex ≠ -1 ∧ h.outIndex < (columns.length : Int) ∧
              0 < parseAmount (Js.getCol columns h.outIndex) then
            -(parseAmount (Js.getCol columns h.outIndex))
          else 0
        if amount ≠ 0 then
          [{ date := dateCol,
             description := if description = "" then "Transaction" else description,
             amount := Js.mathAbs amount,
             type := if 0 < amount then "income" else "expense",
             category := categorizeTransaction description,
             currency := some "GBP",
             rawAmount := some amount }]
        else []

/-- Single-amount push of `extractTransactionsByPattern` (patterns 2 and 3):
the transaction type is inferred from the description. -/
def patSingle (dateStr description amountStr : String) : List Tx :=
  let amount := (Js.parseFloatQ amountStr).getD 0
  if 0 < amount then
    [{ date := dateStr, description := Js.trim description, amount := amount,
       type := determineTypeFromDescription description,
       category := categorizeTransaction description, currency := some "GBP" }]
  else []

/-- Per-line body of `extractTransactionsByPattern`
(src/parsers/starling-parser.js lines 329-419): patterns are tried in order
and the first matching pattern is processed; the two-amount pattern assumes
the first amount is OUT and the second IN and can push one transaction per
non-zero amount. -/
def patLine (line : String) : List Tx :=
  let low := Js.lower line
  if line.length < 10 ∨ Js.includes low "page" ∨ Js.includes low "statement" then []
  else
    match Rx.matchP1 line with
    | some (dateStr, description, a1s, a2s) =>
        let amount1 := (Js.parseFloatQ a1s).getD 0
        let amount2 := (Js.parseFloatQ a2s).getD 0
        (if 0 < amount1 then
          [{ date := dateStr, description := Js.trim description, amount := amount1,
             type := "expense", category := categorizeTransaction description,
             currency := some "GBP" }]
        else []) ++
        (if 0 < amount2 then
          [{ date := dateStr, description := Js.trim description, amount := amount2,
             type := "income", category := categorizeTransaction description,
             currency := some "GBP" }]
        else [])
    | none =>
        match Rx.matchP2 line with
        | some (dateStr, description, amountStr) => patSingle dateStr description amountStr
        | none =>
            match Rx.matchP3 line with
            | some (dateStr, description, amountStr) => patSingle dateStr description amountStr
            | none => []

/-- Function `extractTransactionsByPattern`
(src/parsers/starling-parser.js lines 329-419). -/
def extractTransactionsByPattern (lines : List String) : List Tx :=
  lines.flatMap patLine

/-- Function `extractTransactionsFromStructure`
(src/parsers/starling-parser.js lines 195-322): lines after the detected
header are processed one by one, and when nothing is found (or no header was
detected) the pattern-matching fallback runs instead. -/
def extractTransactionsFromStructure (lines : List String) (h : HeaderInfo) : List Tx :=
  if h.found = false ∨ h.index = -1 then extractTransactionsByPattern lines
  else
    let ts := (lines.drop (h.index + 1).toNat).flatMap (structLine h)
    if ts.isEmpty then extractTransactionsByPattern lines else ts

/-- Function `extractAccountInfo` of starling-parser.js (lines 169-187). -/
def extractAccountInfo (text : String) : AccountInfo :=
  { bankName := "Starling Bank",
    accountType :=
      if Js.includes text "Personal Account" then "Personal"
      else if Js.includes text "Business Account" then "Business"
      else "Unknown",
    accountNumber := "****MASKED****",
    sortCode := "**-**-**",
    statementPeriod := "Unknown",
    currency := "GBP" }

/-- Function `parseStarlingStatement` (src/parsers/starling-parser.js lines
12-57), from the extracted text onward (PDF text extraction is the external
collaborator).  The non-exception path always reports `success: true`,
whatever the number of transactions. -/
def parseStarlingStatement (text : String) : ParseResult :=
  let lines := splitLines text
  let headerInfo := findTransactionHeader lines
  let accountInfo := extractAccountInfo text
  let transactions := extractTransactionsFromStructure lines headerInfo
  { success := true, transactions := transactions, accountInfo := accountInfo,
    transactionCount := transactions.length, error := none }

end Starling

/-! ## part_004 (second revision): four-strategy fallback pipeline -/

/-- Table description built by `findTransactionTable` (part_004). -/
structure TableInfo where
  found : Bool
  headerIndex : Int
  columns : List String
  dateIndex : Int
  descriptionIndex : Int
  inIndex : Int
  outIndex : Int
  balanceIndex : Int
deriving DecidableEq, Repr

namespace Multi

/-- Function `categorizeTransaction` of the part_004 parser (lines 799-857);
its rules coincide with the starling-parser revision but the file carries
its own copy. -/
def categorizeTransaction (description : String) : String :=
  if description == "" then "Uncategorized"
  else
    let d := Js.lower description
    if Js.includes d "salary" || Js.includes d "payroll" then "Income:Salary"
    else if Js.includes d "dividend" then "Income:Dividends"
    else if Js.includes d "interest" then "Income:Interest"
    else if Js.includes d "freelance" || Js.includes d "invoice" then "Income:Freelance"
    else if Js.includes d "tesco" || Js.includes d "sainsbury" || Js.includes d "asda" ||
        Js.includes d "morrisons" || Js.includes d "waitrose" || Js.includes d "aldi" ||
        Js.includes d "lidl" || Js.includes d "grocery" then "Expenses:Groceries"
    else if Js.includes d "uber" || Js.includes d "deliveroo" || Js.includes d "just eat" ||
        Js.includes d "restaurant" || Js.includes d "cafe" || Js.includes d "coffee" then
      "Expenses:Dining"
    else if Js.includes d "amazon" || Js.includes d "ebay" || Js.includes d "argos" ||
        Js.includes d "currys" then "Expenses:Shopping"
    else if Js.includes d "petrol" || Js.includes d "fuel" || Js.includes d "parking" ||
        Js.includes d "transport" || Js.includes d "train" || Js.includes d "bus" ||
        Js.includes d "taxi" then "Expenses:Transport"
    else "Uncategorized"

/-- Function `determineTypeFromDescription` of part_004: income keywords win,
otherwise `"expense"`. -/
def determineTypeFromDescription (description : String) : String :=
  if description == "" then "expense"
  else
    let desc := Js.lower description
    if Js.includes desc "salary" || Js.includes desc "wage" || Js.includes desc "deposit" ||
        Js.includes desc "interest" || Js.includes desc "credit" ||
        Js.includes desc "refund" || Js.includes desc "transfer in" ||
        Js.includes desc "payment received" || Js.includes desc "dividend" then "income"
    else "expense"

/-- Function `determineTypeFromContext` of part_004 (lines 780-792): an
amount in the right half of the line (`amountIndex > line.length / 2`) is
income, otherwise expense. -/
def determineTypeFromContext (line : String) (amountIndex : Nat) : String :=
  if line.length < 2 * amountIndex then "income" else "expense"

/-- Function `parseAmount` of part_004 (lines 721-738): strips currency
symbol, whitespace and commas, treats surrounding parentheses as a negative
sign, and returns `0` on `NaN`. -/
def parseAmount (amountStr : String) : ℚ :=
  if amountStr == "" || Js.trim amountStr == "" then 0
  else
    let cleaned := Js.stripChars (fun c => c == '£' || Js.isWs c || c == ',') amountStr
    let isNegative := Js.includes cleaned "(" && Js.includes cleaned ")"
    let cleaned2 := Js.stripChars (fun c => c == '(' || c == ')') cleaned
    match Js.parseFloatQ cleaned2 with
    | none => 0
    | some a => if isNegative then -a else a

/-- Value of a money capture: `Number.parseFloat(cap.replace(",", "."))`. -/
def capVal (cap : String) : ℚ :=
  (Js.parseFloatQ (Js.replaceFirstChar cap ',' '.')).getD 0

/-- Per-line body of `extractTransactionsByDatePattern` (part_004 lines
283-386): the four date patterns are tried in order; with two or more money
matches the first is assumed OUT (expense) and the second IN (income), each
pushed when positive; with exactly one match a transaction is pushed
unconditionally with the type inferred from the description. -/
def s1Line (line : String) : List Tx :=
  if line.length < 8 then []
  else
    let dateStrOpt :=
      match Rx.searchSlashDate line with
      | some d => some d
      | none =>
          match Rx.searchDashDate line with
          | some d => some d
          | none =>
              match Rx.searchMon3Date line with
              | some d => some d
              | none => Rx.searchWordDate line
    match dateStrOpt with
    | none => []
    | some dateStr =>
        let dateEndIndex := Js.indexOf line dateStr + (dateStr.length : Int)
        match Rx.moneyAll false line with
        | [] => []
        | [m0] =>
            let amountIndex := Js.indexOf line m0.2.1
            let description := Js.trim (Js.substring line dateEndIndex amountIndex)
            [{ date := dateStr,
               description := if description = "" then "Transaction" else description,
               amount := capVal m0.2.2,
               type := determineTypeFromDescription description,
               category := categorizeTransaction description }]
        | m0 :: m1 :: _ =>
            let firstAmountIndex := Js.indexOf line m0.2.1
            let description := Js.trim (Js.substring line dateEndIndex firstAmountIndex)
            let amount1 := capVal m0.2.2
            let amount2 := capVal m1.2.2
            (if 0 < amount1 then
              [{ date := dateStr,
                 description := if description = "" then "Transaction" else description,
                 amount := amount1, type := "expense",
                 category := categorizeTransaction description }]
            else []) ++
            (if 0 < amount2 then
              [{ date := dateStr,
                 description := if description = "" then "Transaction" else description,
                 amount := amount2, type := "income",
                 category := categorizeTransaction description }]
            else [])

/-- Strategy 1, function `extractTransactionsByDatePattern` (part_004 lines
283-386). -/
def extractTransactionsByDatePattern (lines : List String) : List Tx :=
  lines.flatMap s1Line

/-- Loop of `extractTransactionsBySection` (part_004 lines 393-465): a
section-header line switches the scanner into a transaction section starting
at the next index; inside a section the line at the start index is skipped,
a dated line pushes one transaction per money match, and a final line or
blank line leaves the section. -/
def s2Go (total : Nat) : Nat → Bool → Int → List String → List Tx
  | _, _, _, [] => []
  | i, inSec, start, line :: rest =>
      let low := Js.lower line
      if Js.includes low "transaction" || Js.includes low "statement" ||
          Js.includes low "activity" ||
          (Js.includes low "date" && (Js.includes low "in" || Js.includes low "out")) then
        s2Go total (i + 1) true ((i : Int) + 1) rest
      else if inSec then
        if (i : Int) = start then s2Go total (i + 1) inSec start rest
        else
          match Rx.searchCombinedDate line with
          | some dateStr =>
              (match Rx.moneyAll false line with
               | [] => []
               | m0 :: ms =>
                  let dateEndIndex := Js.indexOf line dateStr + (dateStr.length : Int)
                  let firstAmountIndex := Js.indexOf line m0.2.1
                  let description := Js.trim (Js.substring line dateEndIndex firstAmountIndex)
                  (m0 :: ms).map (fun m =>
                    { date := dateStr,
                      description := if description = "" then "Transaction" else description,
                      amount := capVal m.2.2,
                      type := determineTypeFromContext line m.1,
                      category := categorizeTransaction description })) ++
              s2Go total (i + 1) inSec start rest
          | none =>
              let inSec' := if Js.trim line == "" || i = total - 1 then false else inSec
              s2Go total (i + 1) inSec' start rest
      else s2Go total (i + 1) inSec start rest

/-- Strategy 2, function `extractTransactionsBySection` (part_004 lines
393-465). -/
def extractTransactionsBySection (lines : List String) : List Tx :=
  s2Go lines.length 0 false (-1) lines

/-- Column-to-role assignment of `findTransactionTable` (stricter keyword set
than the starling-parser header detector). -/
def assignTableCols (ti : TableInfo) (columns : List String) : TableInfo :=
  columns.enum.foldl
    (fun acc p =>
      let colLower := Js.lower p.2
      let acc := if Js.includes colLower "date" || Js.includes colLower "day" then
          { acc with dateIndex := (p.1 : Int) } else acc
      let acc := if Js.includes colLower "description" || Js.includes colLower "details" ||
          Js.includes colLower "reference" || Js.includes colLower "transaction" then
          { acc with descriptionIndex := (p.1 : Int) } else acc
      let acc := if colLower == "in" || Js.includes colLower "paid in" ||
          Js.includes colLower "credit" then
          { acc with inIndex := (p.1 : Int) } else acc
      let acc := if colLower == "out" || Js.includes colLower "paid out" ||
          Js.includes colLower "debit" then
          { acc with outIndex := (p.1 : Int) } else acc
      if Js.includes colLower "balance" then
        { acc with balanceIndex := (p.1 : Int) } else acc)
    ti

/-- Scanning loop of `findTransactionTable`: the shared record is threaded
through candidates; the function returns early only when a candidate maps a
date column and an IN or OUT column, but a candidate that does not still
leaves `found := true` in the record that is returned at the end. -/
def fttGo : TableInfo → Nat → List String → TableInfo
  | ti, _, [] => ti
  | ti, i, line :: rest =>
      let low := Js.lower line
      if low.length < 10 then fttGo ti (i + 1) rest
      else if (Js.includes low "date" || Js.includes low "day") &&
          (Js.includes low "description" || Js.includes low "details" ||
            Js.includes low "reference") &&
          ((Js.includes low "in" && Js.includes low "out") ||
            (Js.includes low "credit" && Js.includes low "debit") ||
            (Js.includes low "paid in" && Js.includes low "paid out")) then
        let columns := ((Js.splitCols false line).map Js.trim).filter (fun c => 0 < c.length)
        if 3 ≤ columns.length then
          let ti' := assignTableCols
            { ti with found := true, headerIndex := (i : Int), columns := columns } columns
          if ti'.dateIndex ≠ -1 ∧ (ti'.inIndex ≠ -1 ∨ ti'.outIndex ≠ -1) then ti'
          else fttGo ti' (i + 1) rest
        else fttGo ti (i + 1) rest
      else fttGo ti (i + 1) rest

/-- Function `findTransactionTable` (part_004 lines 472-552). -/
def findTransactionTable (lines : List String) : TableInfo :=
  fttGo ⟨false, -1, [], -1, -1, -1, -1, -1⟩ 0 lines

/-- Per-line body of `extractTransactionsFromTable` (part_004 lines 560-632):
the IN and OUT columns are checked independently, and each non-zero column
pushes its own transaction, so a line can yield two. -/
def tableLine (ti : TableInfo) (line : String) : List Tx :=
  let columns := ((Js.splitCols false line).map Js.trim).filter (fun c => 0 < c.length)
  if (columns.length : Int) < max ti.dateIndex (max ti.inIndex ti.outIndex) + 1 then []
  else
    let dateStr := Js.getCol columns ti.dateIndex
    if (Rx.searchCombinedDate dateStr).isSome = false then []
    else
      let description :=
        if ti.descriptionIndex ≠ -1 ∧ ti.descriptionIndex < (columns.length : Int) then
          Js.getCol columns ti.descriptionIndex
        else ""
      (if ti.inIndex ≠ -1 ∧ ti.inIndex < (columns.length : Int) ∧
          0 < parseAmount (Js.getCol columns ti.inIndex) then
        [{ date := dateStr,
           description := if description = "" then "Income transaction" else description,
           amount := parseAmount (Js.getCol columns ti.inIndex), type := "income",
           category := categorizeTransaction description }]
      else []) ++
      (if ti.outIndex ≠ -1 ∧ ti.outIndex < (columns.length : Int) ∧
          0 < parseAmount (Js.getCol columns ti.outIndex) then
        [{ date := dateStr,
           description := if description = "" then "Expense transaction" else description,
           amount := parseAmount (Js.getCol columns ti.outIndex), type := "expense",
           category := categorizeTransaction description }]
      else [])

/-- Row loop of `extractTransactionsFromTable`: blank lines are skipped and a
line containing "total"/"balance"/"page" ends the table. -/
def ettGo (ti : TableInfo) : List String → List Tx
  | [] => []
  | line :: rest =>
      if Js.trim line == "" then ettGo ti rest
      else if Js.includes (Js.lower line) "total" || Js.includes (Js.lower line) "balance" ||
          Js.includes (Js.lower line) "page" then []
      else tableLine ti line ++ ettGo ti rest

/-- Strategy 3, function `extractTransactionsFromTable` (part_004 lines
560-632). -/
def extractTransactionsFromTable (lines : List String) (ti : TableInfo) : List Tx :=
  ettGo ti (lines.drop (ti.headerIndex + 1).toNat)

/-- Per-line body of `extractTransactionsByMoneyPattern` (part_004 lines
639-689): every `£`-amount on a dated line yields one transaction, with the
type inferred from the amount's horizontal position. -/
def s4Line (line : String) : List Tx :=
  if line.length < 8 then []
  else
    match Rx.searchCombinedDate line with
    | none => []
    | some dateStr =>
        match Rx.moneyAll true line with
        | [] => []
        | m0 :: ms =>
            let dateEndIndex := Js.indexOf line dateStr + (dateStr.length : Int)
            let firstAmountIndex := Js.indexOf line m0.2.1
            let description := Js.trim (Js.substring line dateEndIndex firstAmountIndex)
            (m0 :: ms).map (fun m =>
              { date := dateStr,
                description := if description = "" then "Transaction" else description,
                amount := capVal m.2.2,
                type := determineTypeFromContext line m.1,
                category := categorizeTransaction description })

/-- Strategy 4, function `extractTransactionsByMoneyPattern` (part_004 lines
639-689). -/
def extractTransactionsByMoneyPattern (lines : List String) : List Tx :=
  lines.flatMap s4Line

/-- Function `extractAccountInfo` of part_004 (lines 696-714). -/
def extractAccountInfo (text : String) : AccountInfo :=
  { bankName := "Starling Bank",
    accountType :=
      if Js.includes text "Personal Account" then "Personal"
      else if Js.includes text "Business Account" then "Business"
      else "Unknown",
    accountNumber := "****MASKED****",
    sortCode := "**-**-**",
    statementPeriod := "Unknown",
    currency := "GBP" }

/-- Function `parseStarlingStatement` of part_004 (lines 191-276), from the
extracted text onward: the four strategies are tried in order, but the
table-reconstruction branch returns whenever its header was found — even
with zero transactions — and only a found-nothing fall-through reaches the
last-resort strategy, whose emptiness decides `success`.  No branch attaches
an error message. -/
def parseStarlingStatement (text : String) : ParseResult :=
  let lines := splitLines text
  let dateTransactions := extractTransactionsByDatePattern lines
  if 0 < dateTransactions.length then
    { success := true, transactions := dateTransactions,
      accountInfo := extractAccountInfo text,
      transactionCount := dateTransactions.length, error := none }
  else
    let sectionTransactions := extractTransactionsBySection lines
    if 0 < sectionTransactions.length then
      { success := true, transactions := sectionTransactions,
        accountInfo := extractAccountInfo text,
        transactionCount := sectionTransactions.length, error := none }
    else
      let tableInfo := findTransactionTable lines
      if tableInfo.found = true then
        let tableTransactions := extractTransactionsFromTable lines tableInfo
        { success := true, transactions := tableTransactions,
          accountInfo := extractAccountInfo text,
          transactionCount := tableTransactions.length, error := none }
      else
        let fallbackTransactions := extractTransactionsByMoneyPattern lines
        { success := decide (0 < fallbackTransactions.length),
          transactions := fallbackTransactions,
          accountInfo := extractAccountInfo text,
          transactionCount := fallbackTransactions.length, error := none }

end Multi

/-! ## trialBalanceService validation -/

namespace TrialBalance

/-- Row of the `trial_balance_totals` view as consumed by `validateBalance`;
the JavaScript property `section` is called `tbSection` here because
`section` is a Lean keyword. -/
structure TotalsRow where
  tbSection : String
  section_debits : ℚ
  section_credits : ℚ
deriving DecidableEq

/-- Method `validateBalance` of `TrialBalanceService`
(src/services/trialBalanceService.js lines 177-186). -/
def validateBalance (totalsData : List TotalsRow) : Bool :=
  match totalsData.find? (fun row => row.tbSection == "TOTAL") with
  | none => false
  | some totalRow =>
      decide (|totalRow.section_debits - totalRow.section_credits| ≤ (1 / 100 : ℚ))

end TrialBalance

/-! ## Theorems -/

/-- C1: under the header `"Date  Transaction In  Out"` — detected by
`findTransactionHeader` with a date column (index 0) and an OUT column
(index 2) — the structured-column extractor turns the line
`"01/03/2024  TESCO STORES  45.20"` into exactly one candidate transaction
with direction expense, amount 45.20 and category `"Expenses:Groceries"`,
and `formatDate` normalizes its date to `"2024-03-01"` before persistence. -/
theorem structured_column_extraction_tesco :
    (Starling.findTransactionHeader
        ["Date  Transaction In  Out", "01/03/2024  TESCO STORES  45.20"]).found = true ∧
      (Starling.findTransactionHeader
        ["Date  Transaction In  Out", "01/03/2024  TESCO STORES  45.20"]).dateIndex = 0 ∧
      (Starling.findTransactionHeader
        ["Date  Transaction In  Out", "01/03/2024  TESCO STORES  45.20"]).outIndex = 2 ∧
      Starling.extractTransactionsFromStructure
          ["Date  Transaction In  Out", "01/03/2024  TESCO STORES  45.20"]
          (Starling.findTransactionHeader
            ["Date  Transaction In  Out", "01/03/2024  TESCO STORES  45.20"]) =
        [{ date := "01/03/2024", description := "TESCO STORES", amount := 45.2,
           type := "expense", category := "Expenses:Groceries",
           currency := some "GBP", rawAmount := some (-45.2) }] ∧
      Server.formatDate "01/03/2024" = "2024-03-01" := by
  refine ⟨by decide, by decide, by decide, ?_, by decide⟩
  have h1 : (45.2 : ℚ) = mkRat 226 5 := by rw [Rat.mkRat_eq_div]; norm_num
  rw [h1]
  decide

/-- C2 (amended): the structured-column extractor emits at most one
transaction per line — the money-in column is checked first and the money-out
column only when the money-in amount is zero — so a line whose OUT column
alone is non-zero yields exactly one expense transaction; the
table-reconstruction extractor of part_004, by contrast, checks the IN and
OUT columns independently and can emit one transaction per non-zero column
(two when both are non-zero, see the counterexample). -/
theorem struct_line_at_most_one :
    (∀ (h : HeaderInfo) (line : String), (Starling.structLine h line).length ≤ 1) ∧
      Starling.structLine
          (Starling.findTransactionHeader ["Date  Description  Paid In  Paid Out"])
          "01/03/2024  Stuff  0.00  20.00" =
        [{ date := "01/03/2024", description := "Stuff", amount := 20,
           type := "expense", category := "Uncategorized",
           currency := some "GBP", rawAmount := some (-20) }] := by
  constructor
  · intro h line
    simp only [Starling.structLine]
    repeat' split
    all_goals simp
  · decide

/-- C2 counterexample: under a header detected by `findTransactionTable`
that maps both an IN and an OUT column, the table-reconstruction extractor
emits TWO transactions for the single line `"01/03/2024  Stuff  10.00  20.00"`
(one income from the IN column and one expense from the OUT column), so
extraction does not emit at most one transaction per line and the money-out
column is consulted even though the money-in value is non-zero. -/
theorem table_line_two_transactions_cex :
    (Multi.findTransactionTable
        ["Date  Description  Paid In  Paid Out", "01/03/2024  Stuff  10.00  20.00"]).found
        = true ∧
      (Multi.findTransactionTable
        ["Date  Description  Paid In  Paid Out", "01/03/2024  Stuff  10.00  20.00"]).inIndex
        = 2 ∧
      (Multi.findTransactionTable
        ["Date  Description  Paid In  Paid Out", "01/03/2024  Stuff  10.00  20.00"]).outIndex
        = 3 ∧
      Multi.tableLine
          (Multi.findTransactionTable
            ["Date  Description  Paid In  Paid Out", "01/03/2024  Stuff  10.00  20.00"])
          "01/03/2024  Stuff  10.00  20.00" =
        [{ date := "01/03/2024", description := "Stuff", amount := 10, type := "income",
           category := "Uncategorized" },
         { date := "01/03/2024", description := "Stuff", amount := 20, type := "expense",
           category := "Uncategorized" }] := by
  refine ⟨by decide, by decide, by decide, by decide⟩

/-- C3 (amended): the part_004 pipeline tries its strategies in order and
stops at the first non-empty result of the date-pattern and section
strategies; the table-reconstruction strategy, however, is terminal whenever
its header is merely found — its output is returned even when empty — and
the last-resort money-pattern strategy runs only when no table header was
found. -/
theorem pipeline_priority_order_amended (text : String) :
    (Multi.extractTransactionsByDatePattern (splitLines text) ≠ [] →
      (Multi.parseStarlingStatement text).transactions =
        Multi.extractTransactionsByDatePattern (splitLines text)) ∧
      (Multi.extractTransactionsByDatePattern (splitLines text) = [] →
        Multi.extractTransactionsBySection (splitLines text) ≠ [] →
        (Multi.parseStarlingStatement text).transactions =
          Multi.extractTransactionsBySection (splitLines text)) ∧
      (Multi.extractTransactionsByDatePattern (splitLines text) = [] →
        Multi.extractTransactionsBySection (splitLines text) = [] →
        (Multi.findTransactionTable (splitLines text)).found = true →
        (Multi.parseStarlingStatement text).transactions =
          Multi.extractTransactionsFromTable (splitLines text)
            (Multi.findTransactionTable (splitLines text))) ∧
      (Multi.extractTransactionsByDatePattern (splitLines text) = [] →
        Multi.extractTransactionsBySection (splitLines text) = [] →
        (Multi.findTransactionTable (splitLines text)).found = false →
        (Multi.parseStarlingStatement text).transactions =
          Multi.extractTransactionsByMoneyPattern (splitLines text)) := by
  refine ⟨?_, ?_, ?_, ?_⟩
  · intro h1
    have p1 : 0 < (Multi.extractTransactionsByDatePattern (splitLines text)).length :=
      List.length_pos.mpr h1
    simp [Multi.parseStarlingStatement, p1]
  · intro h1 h2
    have p2 : 0 < (Multi.extractTransactionsBySection (splitLines text)).length :=
      List.length_pos.mpr h2
    simp [Multi.parseStarlingStatement, h1, p2]
  · intro h1 h2 h3
    simp [Multi.parseStarlingStatement, h1, h2, h3]
  · intro h1 h2 h3
    simp [Multi.parseStarlingStatement, h1, h2, h3]

/-- Witness for C3 at a one-line statement whose date-pattern strategy is
non-empty: the pipeline output is that strategy's output. -/
theorem pipeline_priority_order_witness :
    (Multi.parseStarlingStatement "01/03/2024 Salary £100.00").transactions =
      Multi.extractTransactionsByDatePattern
        (splitLines "01/03/2024 Salary £100.00") :=
  (pipeline_priority_order_amended "01/03/2024 Salary £100.00").1 (by decide)

/-- C3 counterexample: on this two-line input the first two strategies are
empty, the stricter table header is found but table extraction yields
nothing, and the last-resort strategy would yield two transactions — yet the
pipeline returns an empty transaction list, so the chain does not stop at
the first strategy that yields a non-empty result. -/
theorem pipeline_priority_cex :
    Multi.extractTransactionsByDatePattern
        (splitLines "Date  Description  Paid In  Paid Out\n01/03/2024 X £0.00 £0.00") = [] ∧
      Multi.extractTransactionsBySection
        (splitLines "Date  Description  Paid In  Paid Out\n01/03/2024 X £0.00 £0.00") = [] ∧
      (Multi.findTransactionTable
        (splitLines "Date  Description  Paid In  Paid Out\n01/03/2024 X £0.00 £0.00")).found
        = true ∧
      Multi.extractTransactionsFromTable
        (splitLines "Date  Description  Paid In  Paid Out\n01/03/2024 X £0.00 £0.00")
        (Multi.findTransactionTable
          (splitLines "Date  Description  Paid In  Paid Out\n01/03/2024 X £0.00 £0.00")) = [] ∧
      Multi.extractTransactionsByMoneyPattern
        (splitLines "Date  Description  Paid In  Paid Out\n01/03/2024 X £0.00 £0.00") ≠ [] ∧
      (Multi.parseStarlingStatement
        "Date  Description  Paid In  Paid Out\n01/03/2024 X £0.00 £0.00").transactions = [] := by
  refine ⟨by decide, by decide, by decide, by decide, by decide, by decide⟩

/-- C7 counterexample: the starling-parser `parseAmount` strips parentheses
together with minus signs and returns an absolute value, so the
parenthesized amount `"(45.20)"` parses to positive `45.2`, not to a
negative value. -/
theorem parseAmount_parentheses_cex :
    Starling.parseAmount "(45.20)" = 45.2 ∧ ¬ Starling.parseAmount "(45.20)" < 0 := by
  have h1 : (45.2 : ℚ) = mkRat 226 5 := by rw [Rat.mkRat_eq_div]; norm_num
  rw [h1]
  exact ⟨by decide, by decide⟩

/-- C7 (amended): both amount parsers strip currency symbols, thousands
separators and whitespace, and a string with non-numeric residue parses to
`0` rather than an error; parentheses denote a negative value only in the
part_004 parser — the starling-parser strips parentheses and signs and
always returns a non-negative value. -/
theorem parseAmount_behavior_amended :
    Multi.parseAmount "(£1,234.50)" = -(1234.5 : ℚ) ∧
      Starling.parseAmount "(£1,234.50)" = (1234.5 : ℚ) ∧
      Starling.parseAmount " 45.20 " = (45.2 : ℚ) ∧
      Multi.parseAmount "abc" = 0 ∧
      Starling.parseAmount "abc" = 0 ∧
      ∀ s : String, 0 ≤ Starling.parseAmount s := by
  have h1 : (1234.5 : ℚ) = mkRat 2469 2 := by rw [Rat.mkRat_eq_div]; norm_num
  have h2 : (45.2 : ℚ) = mkRat 226 5 := by rw [Rat.mkRat_eq_div]; norm_num
  rw [h1, h2]
  refine ⟨by decide, by decide, by decide, by decide, by decide, ?_⟩
  have habs : ∀ o : Option ℚ, 0 ≤ Js.absOrZero o := by
    intro o
    cases o with
    | none => exact le_refl 0
    | some q =>
        show 0 ≤ Js.mathAbs q
        unfold Js.mathAbs
        split
        · rw [neg_nonneg, ← Rat.num_nonpos]
          omega
        · rw [← Rat.num_nonneg]
          omega
  intro s
  unfold Starling.parseAmount
  split
  · exact le_refl 0
  · exact habs _

/-- C8 (amended): the embedded parser is a total function always returning
the ParseResult shape, and NO non-exception branch attaches a diagnostic
message (`error = none` for every input — the error field is only set by
the exception path).  When no strategy yields any transactions, the
part_004 pipeline returns an empty transaction list whose `success` flag
depends on the table detector: `success: false` when no table header was
found, but `success: true` when the stricter table header was detected
(that branch is terminal even with zero transactions); the starling-parser
revision reports `success: true` unconditionally on its non-exception
path.  In no case is the claimed diagnostic message produced. -/
theorem parse_result_no_diagnostic_amended (text : String) :
    (Multi.parseStarlingStatement text).error = none ∧
      (Starling.parseStarlingStatement text).success = true ∧
      (Starling.parseStarlingStatement text).error = none ∧
      (Multi.extractTransactionsByDatePattern (splitLines text) = [] →
        Multi.extractTransactionsBySection (splitLines text) = [] →
        (Multi.findTransactionTable (splitLines text)).found = false →
        Multi.extractTransactionsByMoneyPattern (splitLines text) = [] →
        Multi.parseStarlingStatement text =
          { success := false, transactions := [],
            accountInfo := Multi.extractAccountInfo text,
            transactionCount := 0, error := none }) ∧
      (Multi.extractTransactionsByDatePattern (splitLines text) = [] →
        Multi.extractTransactionsBySection (splitLines text) = [] →
        (Multi.findTransactionTable (splitLines text)).found = true →
        Multi.extractTransactionsFromTable (splitLines text)
          (Multi.findTransactionTable (splitLines text)) = [] →
        Multi.parseStarlingStatement text =
          { success := true, transactions := [],
            accountInfo := Multi.extractAccountInfo text,
            transactionCount := 0, error := none }) := by
  refine ⟨?_, rfl, rfl, ?_, ?_⟩
  · simp only [Multi.parseStarlingStatement]
    repeat' split
    all_goals rfl
  · intro h1 h2 h3 h4
    simp [Multi.parseStarlingStatement, h1, h2, h3, h4]
  · intro h1 h2 h3 h4
    simp [Multi.parseStarlingStatement, h1, h2, h3, h4]

/-- Witness for C8 at two texts in which no strategy finds any transaction:
one with no table header (`success: false`) and one that is a lone table
header line (`success: true` with an empty list). -/
theorem parse_result_no_diagnostic_witness :
    Multi.parseStarlingStatement "hello world, nothing here" =
      { success := false, transactions := [],
        accountInfo := Multi.extractAccountInfo "hello world, nothing here",
        transactionCount := 0, error := none } ∧
      Multi.parseStarlingStatement "Date  Description  Paid In  Paid Out" =
        { success := true, transactions := [],
          accountInfo := Multi.extractAccountInfo "Date  Description  Paid In  Paid Out",
          transactionCount := 0, error := none } :=
  ⟨(parse_result_no_diagnostic_amended "hello world, nothing here").2.2.2.1
      (by decide) (by decide) (by decide) (by decide),
   (parse_result_no_diagnostic_amended "Date  Description  Paid In  Paid Out").2.2.2.2
      (by decide) (by decide) (by decide) (by decide)⟩

/-- C8 counterexample: on a document with no transactions the part_004
parser reports `success: false` with an empty list but NO diagnostic
message (`error = none`), and the starling-parser reports `success: true`
with an empty list — contradicting the claimed `success:false` plus
diagnostic-message contract. -/
theorem parse_result_shape_cex :
    (Multi.parseStarlingStatement "hello world, nothing here").success = false ∧
      (Multi.parseStarlingStatement "hello world, nothing here").transactions = [] ∧
      (Multi.parseStarlingStatement "hello world, nothing here").error = none ∧
      (Starling.parseStarlingStatement "hello world, nothing here").success = true ∧
      (Starling.parseStarlingStatement "hello world, nothing here").transactions = [] := by
  refine ⟨by decide, by decide, by decide, by decide, by decide⟩

namespace Server

/-- Replacing the seen-set by one with the same members leaves `dedupGo`
unchanged. -/
theorem dedupGo_congr (ts : List Tx) :
    ∀ s₁ s₂ : List String, (∀ x, x ∈ s₁ ↔ x ∈ s₂) → dedupGo s₁ ts = dedupGo s₂ ts := by
  induction ts with
  | nil => intro s₁ s₂ _; rfl
  | cons t ts ih =>
      intro s₁ s₂ h
      simp only [dedupGo]
      by_cases hm : dedupKey t ∈ s₁
      · rw [if_pos hm, if_pos ((h _).mp hm)]
        exact ih _ _ h
      · rw [if_neg hm, if_neg (fun c => hm ((h _).mpr c))]
        refine congrArg (t :: ·) (ih _ _ ?_)
        intro x
        simp [List.mem_cons, h x]

/-- Pushing a key into the seen set is the same as filtering that key out of
the remaining input. -/
theorem dedupGo_cons_key (ts : List Tx) :
    ∀ (seen : List String) (k : String),
      dedupGo (k :: seen) ts = dedupGo seen (ts.filter (fun u => dedupKey u != k)) := by
  induction ts with
  | nil => intro seen k; rfl
  | cons t ts ih =>
      intro seen k
      by_cases hk : dedupKey t = k
      · have hmem : dedupKey t ∈ k :: seen := by simp [hk]
        have hf : (dedupKey t != k) = false := by simp [hk]
        simp only [dedupGo, List.filter_cons, hf, if_pos hmem]
        exact ih seen k
      · have hf : (dedupKey t != k) = true := by simp [hk]
        by_cases hm : dedupKey t ∈ seen
        · have hmem : dedupKey t ∈ k :: seen := by simp [hm]
          simp only [dedupGo, List.filter_cons, hf, if_pos hmem, if_pos hm, cond_true]
          exact ih seen k
        · have hmem : dedupKey t ∉ k :: seen := by
            simp [List.mem_cons, hk, hm]
          simp only [dedupGo, List.filter_cons, hf, if_neg hmem, if_neg hm, cond_true]
          refine congrArg (t :: ·) ?_
          calc dedupGo (dedupKey t :: k :: seen) ts
              = dedupGo (k :: dedupKey t :: seen) ts := by
                apply dedupGo_congr
                intro x
                simp [List.mem_cons]
                tauto
            _ = dedupGo (dedupKey t :: seen) (ts.filter (fun u => dedupKey u != k)) :=
                ih (dedupKey t :: seen) k

/-- Bounded-length version of the equivalence between the seen-set loop and
the first-occurrence deduplicator. -/
theorem dedupGo_eq_keepFirst_aux :
    ∀ (n : ℕ) (txs : List Tx), txs.length ≤ n → dedupGo [] txs = keepFirstByKey txs := by
  intro n
  induction n with
  | zero =>
      intro txs h
      have : txs = [] := List.eq_nil_of_length_eq_zero (Nat.le_zero.mp h)
      subst this
      simp [dedupGo, keepFirstByKey]
  | succ n ih =>
      intro txs h
      match txs with
      | [] => simp [dedupGo, keepFirstByKey]
      | t :: ts =>
          have hts : ts.length ≤ n := by
            simp only [List.length_cons] at h
            omega
          have hnot : dedupKey t ∉ ([] : List String) := List.not_mem_nil _
          simp only [dedupGo, if_neg hnot]
          rw [dedupGo_cons_key]
          rw [ih _ (le_trans (List.length_filter_le _ _) hts)]
          rw [keepFirstByKey]

/-- Over any seen set, the loop's output is a sublist of its input. -/
theorem dedupGo_sublist (ts : List Tx) :
    ∀ seen, (dedupGo seen ts).Sublist ts := by
  induction ts with
  | nil => intro seen; exact List.Sublist.refl []
  | cons t ts ih =>
      intro seen
      simp only [dedupGo]
      by_cases hm : dedupKey t ∈ seen
      · rw [if_pos hm]; exact (ih seen).cons t
      · rw [if_neg hm]; exact (ih _).cons₂ t

end Server

/-- C4 (amended): deduplication keys each element by the hyphen-joined string
`date-amount-description.substring(0,10)` (not by the genuine triple, whose
components this string conflates); the first occurrence of each key is kept,
every later occurrence of the same key is dropped, and the relative order of
kept elements is preserved (the result is a sublist of the input). -/
theorem dedup_keeps_first_by_string_key (txs : List Tx) :
    Server.removeDuplicateTransactions txs = Server.keepFirstByKey txs ∧
      (Server.removeDuplicateTransactions txs).Sublist txs :=
  ⟨Server.dedupGo_eq_keepFirst_aux txs.length txs le_rfl, Server.dedupGo_sublist txs []⟩

/-- C4 counterexample: two transactions with different `(date, amount,
description[0:10])` triples share the hyphen-joined key `"1-2-3-x"`, so the
second is dropped even though the claim's triple-keyed deduplication would
keep both. -/
theorem dedup_key_collision_cex :
    Server.dedupTriple ⟨"1-2", "x", 3, "expense", "", none, none⟩ ≠
        Server.dedupTriple ⟨"1", "3-x", 2, "expense", "", none, none⟩ ∧
      Server.dedupKey ⟨"1-2", "x", 3, "expense", "", none, none⟩ =
        Server.dedupKey ⟨"1", "3-x", 2, "expense", "", none, none⟩ ∧
      Server.removeDuplicateTransactions
          [⟨"1-2", "x", 3, "expense", "", none, none⟩,
           ⟨"1", "3-x", 2, "expense", "", none, none⟩] =
        [⟨"1-2", "x", 3, "expense", "", none, none⟩] := by
  refine ⟨by decide, by decide, by decide⟩

/-- C5: `autoCodeTransaction` is a pure function of `(description, amount,
isIncome)` — repeated calls with the same arguments agree — and
`autoCodeTransaction("Salary payment", 2500, true)` returns `"4000"`. -/
theorem autoCode_deterministic_salary :
    Coding.autoCodeTransaction "Salary payment" 2500 true = "4000" ∧
      ∀ (d : String) (a : ℚ) (i : Bool),
        Coding.autoCodeTransaction d a i = Coding.autoCodeTransaction d a i :=
  ⟨by decide, fun _ _ _ => rfl⟩

/-- C6: when the totals data contains a `TOTAL` row, the trial balance is
reported as balanced exactly when the absolute difference between that row's
total debits and total credits is at most `0.01`. -/
theorem validateBalance_iff_within_tolerance
    (data : List TrialBalance.TotalsRow) (r : TrialBalance.TotalsRow)
    (h : data.find? (fun row => row.tbSection == "TOTAL") = some r) :
    TrialBalance.validateBalance data = true ↔
      |r.section_debits - r.section_credits| ≤ (1 / 100 : ℚ) := by
  unfold TrialBalance.validateBalance
  rw [h]
  exact decide_eq_true_iff

/-- Witness for C6 at a concrete totals row that is within tolerance. -/
theorem validateBalance_iff_witness :
    TrialBalance.validateBalance [⟨"TOTAL", 100, 100⟩] = true :=
  (validateBalance_iff_within_tolerance [⟨"TOTAL", 100, 100⟩]
      ⟨"TOTAL", 100, 100⟩ (by rfl)).mpr (by norm_num)

/-- C9: `validateBalance` returns `false` for every totals input containing no
row whose section equals `"TOTAL"`, regardless of the other rows' amounts. -/
theorem validateBalance_false_without_total_row
    (data : List TrialBalance.TotalsRow)
    (h : ∀ r ∈ data, r.tbSection ≠ "TOTAL") :
    TrialBalance.validateBalance data = false := by
  unfold TrialBalance.validateBalance
  have hnone : data.find? (fun row => row.tbSection == "TOTAL") = none := by
    rw [List.find?_eq_none]
    intro x hx
    simpa using h x hx
  rw [hnone]

/-- Witness for C9 at a concrete totals list with no TOTAL row. -/
theorem validateBalance_no_total_witness :
    TrialBalance.validateBalance [⟨"Assets", 5, 99⟩] = false :=
  validateBalance_false_without_total_row [⟨"Assets", 5, 99⟩] (by decide)

namespace Rx

/-- Shape of a successful `fourDigits` parse: four digit characters. -/
theorem fourDigits_shape {l y rest : List Char} (h : fourDigits l = some (y, rest)) :
    ∃ a b c e, y = [a, b, c, e] ∧ a.isDigit = true ∧ b.isDigit = true ∧
      c.isDigit = true ∧ e.isDigit = true := by
  match l with
  | [] => simp [fourDigits] at h
  | [_] => simp [fourDigits] at h
  | [_, _] => simp [fourDigits] at h
  | [_, _, _] => simp [fourDigits] at h
  | a :: b :: c :: e :: rest0 =>
      simp only [fourDigits] at h
      by_cases hd : (a.isDigit && b.isDigit && c.isDigit && e.isDigit) = true
      · rw [if_pos hd] at h
        simp only [Option.some.injEq, Prod.mk.injEq] at h
        obtain ⟨hy, _⟩ := h
        simp only [Bool.and_eq_true] at hd
        exact ⟨a, b, c, e, hy.symm, hd.1.1.1, hd.1.1.2, hd.1.2, hd.2⟩
      · rw [if_neg hd] at h
        exact absurd h (by simp)

/-- Shape of the year group of a successful `matchDDMMYYYY`: exactly four
digit characters. -/
theorem matchDDMMYYYY_year_shape {l d m y : List Char}
    (h : matchDDMMYYYY l = some (d, m, y)) :
    ∃ a b c e, y = [a, b, c, e] ∧ a.isDigit = true ∧ b.isDigit = true ∧
      c.isDigit = true ∧ e.isDigit = true := by
  unfold matchDDMMYYYY at h
  cases h1 : d12sep (· == '/') l with
  | none => simp only [h1] at h; exact Option.noConfusion h
  | some p =>
      obtain ⟨d1, r1⟩ := p
      simp only [h1] at h
      cases h2 : d12sep (· == '/') r1 with
      | none => simp only [h2] at h; exact Option.noConfusion h
      | some q =>
          obtain ⟨m1, r2⟩ := q
          simp only [h2] at h
          cases h3 : fourDigits r2 with
          | none => simp only [h3] at h; exact Option.noConfusion h
          | some fr =>
              obtain ⟨y1, rest⟩ := fr
              simp only [h3] at h
              cases rest with
              | nil =>
                  simp only [Option.some.injEq, Prod.mk.injEq] at h
                  obtain ⟨_, _, hy⟩ := h
                  subst hy
                  exact fourDigits_shape h3
              | cons _ _ => exact Option.noConfusion h

/-- A string whose first three characters are digits cannot match
`^\d{1,2}\/\d{1,2}\/\d{4}$`. -/
theorem matchDDMMYYYY_digits_head_none (a b c : Char) (rest : List Char)
    (ha : a.isDigit = true) (hb : b.isDigit = true) (hc : c.isDigit = true) :
    matchDDMMYYYY (a :: b :: c :: rest) = none := by
  have hc' : (c == '/') = false := by
    cases hcc : c == '/'
    · rfl
    · rw [show c = '/' from by simpa using hcc] at hc
      exact absurd hc (by decide)
  have hb' : (b == '/') = false := by
    cases hbb : b == '/'
    · rfl
    · rw [show b = '/' from by simpa using hbb] at hb
      exact absurd hb (by decide)
  simp [matchDDMMYYYY, d12sep, ha, hb, hc', hb']

end Rx

namespace Server

/-- Unfolding of `formatDate` when the input does not match the pattern. -/
theorem formatDate_of_none {s : String} (h : Rx.matchDDMMYYYY s.data = none) :
    formatDate s = s := by
  unfold formatDate
  rw [h]

/-- Unfolding of `formatDate` on a successful match. -/
theorem formatDate_of_some {s : String} {d m y : List Char}
    (h : Rx.matchDDMMYYYY s.data = some (d, m, y)) :
    formatDate s = String.mk (y ++ '-' :: (padTwo m ++ '-' :: padTwo d)) := by
  unfold formatDate
  rw [h]

end Server

/-- C10: `formatDate` is idempotent — a date already rewritten to
`YYYY-MM-DD` starts with four year digits, so it no longer matches the
`DD/MM/YYYY` pattern, and every non-matching string is returned unchanged. -/
theorem formatDate_idempotent (s : String) :
    Server.formatDate (Server.formatDate s) = Server.formatDate s := by
  cases h : Rx.matchDDMMYYYY s.data with
  | none => simp [Server.formatDate_of_none h]
  | some trip =>
      obtain ⟨d, m, y⟩ := trip
      obtain ⟨a, b, c, e, hy, ha, hb, hc, _⟩ := Rx.matchDDMMYYYY_year_shape h
      subst hy
      rw [Server.formatDate_of_some h]
      apply Server.formatDate_of_none
      show Rx.matchDDMMYYYY
        (a :: b :: c :: e :: '-' :: (Server.padTwo m ++ '-' :: Server.padTwo d)) = none
      exact Rx.matchDDMMYYYY_digits_head_none a b c _ ha hb hc

end GMBD
